import Mathlib

/-!
Shallow embedding of the recommendations service
(`service/models.py` and `service/routes.py`).

The data layer stores rows of a single table (`RecommendationModel`), and
the Flask routes expose CRUD plus a like-increment and two query endpoints.
Python model objects carry untyped attribute values (anything a JSON body can
hold plus `datetime` objects), while persisted rows are well-typed by the
column schema; the embedding keeps both views:

* `RecommendationModel` — the ORM object as `serialize`/`deserialize` see it
  (attributes are arbitrary Python values, `PyVal`);
* `RecRow` — a committed row (`id` integer primary key, typed columns).

Floats are modelled as rationals (the claims only use ordering and equality)
and `datetime.isoformat` is modelled on a calendar-tuple datetime.
-/

namespace RecSvc

/-- A `datetime.datetime` value (the fields the service reads). -/
structure Datetime where
  year : Nat
  month : Nat
  day : Nat
  hour : Nat
  minute : Nat
  second : Nat
deriving DecidableEq

/-- Zero-pad a numeral to two digits, as `datetime.isoformat` prints. -/
def pad2 (n : Nat) : String :=
  if n < 10 then "0" ++ toString n else toString n

/-- Zero-pad a year to four digits. -/
def pad4 (n : Nat) : String :=
  if n < 10 then "000" ++ toString n
  else if n < 100 then "00" ++ toString n
  else if n < 1000 then "0" ++ toString n
  else toString n

/-- `datetime.isoformat()`: `YYYY-MM-DDTHH:MM:SS`. -/
def Datetime.isoformat (t : Datetime) : String :=
  pad4 t.year ++ "-" ++ pad2 t.month ++ "-" ++ pad2 t.day ++ "T" ++
    pad2 t.hour ++ ":" ++ pad2 t.minute ++ ":" ++ pad2 t.second

/-- A Python value as it can appear on a model attribute or in a request
dictionary: `None`, `int`, `float` (modelled as `Rat`), `str`, or a
`datetime` object. -/
inductive PyVal where
  | vnone
  | vint (n : Int)
  | vfloat (q : Rat)
  | vstr (s : String)
  | vdatetime (t : Datetime)
deriving DecidableEq

/-- Python truthiness of a `PyVal` (`None`, `0`, `0.0`, `""` are falsy;
`datetime` objects are always truthy). -/
def PyVal.truthy : PyVal → Bool
  | .vnone => false
  | .vint n => n != 0
  | .vfloat q => q != 0
  | .vstr s => s != ""
  | .vdatetime _ => true

/-- A Python dictionary over the keys this service ever reads or writes
(`id`, `user_id`, `product_id`, `score`, `timestamp`, `num_likes`).
A `none` field means the key is absent from the dictionary; dictionary
equality (`==` in Python) is field-wise equality. -/
structure Dict where
  id : Option PyVal
  user_id : Option PyVal
  product_id : Option PyVal
  score : Option PyVal
  timestamp : Option PyVal
  num_likes : Option PyVal
deriving DecidableEq

/-- Exceptions the model layer can raise while serializing/deserializing. -/
inductive PyError where
  | attributeError
  | keyError (k : String)
deriving DecidableEq

deriving instance DecidableEq for Except

/-- The ORM object as `serialize`/`deserialize` see it: each attribute holds
whatever Python value was last assigned to it. -/
structure RecommendationModel where
  id : PyVal
  user_id : PyVal
  product_id : PyVal
  score : PyVal
  timestamp : PyVal
  num_likes : PyVal
deriving DecidableEq

/-- A freshly constructed `RecommendationModel()`: every attribute is `None`. -/
def freshModel : RecommendationModel :=
  ⟨.vnone, .vnone, .vnone, .vnone, .vnone, .vnone⟩

/-- `RecommendationModel.serialize` (models.py lines 91-100): emits all six
keys; `timestamp` goes through `self.timestamp.isoformat() if self.timestamp
else None`, which raises `AttributeError` when the attribute is truthy but
not a `datetime` object. -/
def RecommendationModel.serialize (m : RecommendationModel) :
    Except PyError Dict := do
  let ts ←
    if m.timestamp.truthy then
      match m.timestamp with
      | .vdatetime t => pure (PyVal.vstr t.isoformat)
      | _ => throw PyError.attributeError
    else
      pure PyVal.vnone
  pure ⟨some m.id, some m.user_id, some m.product_id, some m.score,
        some ts, some m.num_likes⟩

/-- `RecommendationModel.deserialize` (models.py lines 102-124): assigns the
four required keys (raising `KeyError`, reported as a `DataValidationError`,
for the first one missing, in source order), takes `num_likes` with default
`0`, and leaves `id` untouched. -/
def RecommendationModel.deserialize (m : RecommendationModel) (data : Dict) :
    Except PyError RecommendationModel := do
  let u ← match data.user_id with
    | some v => pure v
    | none => throw (PyError.keyError "user_id")
  let p ← match data.product_id with
    | some v => pure v
    | none => throw (PyError.keyError "product_id")
  let s ← match data.score with
    | some v => pure v
    | none => throw (PyError.keyError "score")
  let t ← match data.timestamp with
    | some v => pure v
    | none => throw (PyError.keyError "timestamp")
  let likes := data.num_likes.getD (PyVal.vint 0)
  pure { m with user_id := u, product_id := p, score := s,
                timestamp := t, num_likes := likes }

/-- `serialize(deserialize(d))` on a fresh model, the round trip of the spec. -/
def roundTrip (d : Dict) : Except PyError Dict :=
  (freshModel.deserialize d).bind RecommendationModel.serialize

/-- A committed row of the table: typed by the column schema
(`id` integer primary key, integer `user_id`/`product_id`/`num_likes`,
float `score`, datetime `timestamp`). -/
structure RecRow where
  rid : Nat
  user_id : Int
  product_id : Int
  score : Rat
  timestamp : Datetime
  num_likes : Int
deriving DecidableEq

/-- `serialize` on a committed row (all attributes well-typed). -/
def RecRow.serialize (r : RecRow) : Dict :=
  ⟨some (.vint (r.rid : Int)), some (.vint r.user_id),
   some (.vint r.product_id), some (.vfloat r.score),
   some (.vstr r.timestamp.isoformat), some (.vint r.num_likes)⟩

/-- The filter dictionary accepted by `find_by_filters`: a present key is a
`some` field (the filter endpoint strips `None` values before calling it). -/
structure Filters where
  user_id : Option Int
  product_id : Option Int
  score : Option Rat
  min_score : Option Rat
  max_score : Option Rat
  min_likes : Option Int
deriving DecidableEq

/-- The empty filter dictionary. -/
def Filters.empty : Filters := ⟨none, none, none, none, none, none⟩

/-- `RecommendationModel.all` (models.py lines 130-134): every row. -/
def allRecommendations (db : List RecRow) : List RecRow := db

/-- `RecommendationModel.find_by_filters` (models.py lines 154-178):
`filters = filters or {}`, then one `query.filter` per present key, applied
in source order; finally `query.all()`. -/
def find_by_filters (db : List RecRow) (filters : Option Filters) :
    List RecRow :=
  let fs := filters.getD Filters.empty
  let q := db
  let q := match fs.user_id with
    | some u => q.filter (fun r => r.user_id == u)
    | none => q
  let q := match fs.product_id with
    | some p => q.filter (fun r => r.product_id == p)
    | none => q
  let q := match fs.score with
    | some s => q.filter (fun r => r.score == s)
    | none => q
  let q := match fs.min_score with
    | some s => q.filter (fun r => decide (s ≤ r.score))
    | none => q
  let q := match fs.max_score with
    | some s => q.filter (fun r => decide (r.score ≤ s))
    | none => q
  let q := match fs.min_likes with
    | some l => q.filter (fun r => decide (l ≤ r.num_likes))
    | none => q
  q

/-- The spec's reading of `find_by_filters`: the conjunction of the present
predicates (equality for `user_id`/`product_id`/`score`, inclusive bounds
for `min_score`/`max_score`/`min_likes`), absent keys imposing no
constraint. Stated from the spec's words, to be compared with
`find_by_filters`. -/
def matchesFilters (fs : Filters) (r : RecRow) : Bool :=
  (match fs.user_id with
    | some u => r.user_id == u
    | none => true) &&
  (match fs.product_id with
    | some p => r.product_id == p
    | none => true) &&
  (match fs.score with
    | some s => r.score == s
    | none => true) &&
  (match fs.min_score with
    | some s => decide (s ≤ r.score)
    | none => true) &&
  (match fs.max_score with
    | some s => decide (r.score ≤ s)
    | none => true) &&
  (match fs.min_likes with
    | some l => decide (l ≤ r.num_likes)
    | none => true)

/-- A character Python's Unicode-aware `str.isdigit()` accepts: any
character of Unicode `Numeric_Type` `Digit` or `Decimal`. Beyond the ASCII
digits the table here lists the superscript digits `¹²³` — the non-decimal
digit characters this development reasons about; Python accepts further
Unicode digit characters, which behave like these (`isdigit()` true) while
the decimal ones among them also parse in `int()`. -/
def pyDigitChar (c : Char) : Bool :=
  c.isDigit || c == '¹' || c == '²' || c == '³'

/-- Python `str.isdigit()` on the id strings the routes see: non-empty and
every character a Unicode digit (not only ASCII: `"²".isdigit()` is
`True`). -/
def pyIsDigit (s : String) : Bool :=
  !s.data.isEmpty && s.data.all pyDigitChar

/-- Python `int(s)` on the id strings the routes see: the base-10 value
when `s` is a non-empty string of decimal digits (ASCII, within the
characters modelled here), and `none` — a `ValueError`, which the routes do
not catch — otherwise; in particular `int("²")` raises even though
`"²".isdigit()` is `True`. -/
def strToNat? (s : String) : Option Nat :=
  if !s.data.isEmpty && s.data.all Char.isDigit then
    some (s.data.foldl (fun acc c => acc * 10 + (c.toNat - Char.toNat '0')) 0)
  else none

/-- A response of the single-record routes (`GET`/`PUT`/`DELETE` on
`/recommendations/{id}` and the likes routes). -/
inductive SingleResp where
  /-- HTTP 400 with an error message. -/
  | badRequest (msg : String)
  /-- HTTP 404. -/
  | notFound
  /-- HTTP 200 with a serialized record body. -/
  | okRec (body : Dict)
  /-- HTTP 200 with the `{"id": ..., "likes": ...}` body of the likes GET. -/
  | okLikes (id : String) (likes : Int)
  /-- HTTP 204 with an empty body. -/
  | noContent
  /-- HTTP 500: an exception (`ValueError` from `int()`, or a failed store
  lookup on a non-numeric id) the route does not catch. -/
  | serverError
deriving DecidableEq

/-- The HTTP status a `SingleResp` carries. -/
def SingleResp.status : SingleResp → Nat
  | .badRequest _ => 400
  | .notFound => 404
  | .okRec _ => 200
  | .okLikes _ _ => 200
  | .noContent => 204
  | .serverError => 500

/-- `RecommendationModel.find` (models.py lines 136-140): primary-key
lookup. -/
def find (db : List RecRow) (n : Nat) : Option RecRow :=
  db.find? (fun r => r.rid == n)

/-- Committing a mutated object fetched by primary key: the row with that id
is replaced (`id` is the primary key, so at most one row matches). -/
def updateRec (db : List RecRow) (r : RecRow) : List RecRow :=
  db.map (fun x => if x.rid == r.rid then r else x)

/-- A creation payload after a successful `deserialize` of a well-typed
body: required fields typed by the column schema, `timestamp`/`num_likes`
optional, plus any client-supplied `id` (which `create` discards by setting
`self.id = None`). -/
structure CreatePayload where
  cid : Option Nat
  user_id : Int
  product_id : Int
  score : Rat
  timestamp : Option Datetime
  num_likes : Option Int
deriving DecidableEq

/-- `RecommendationModel.create` (models.py lines 39-58): defaults
`timestamp` to the current time when absent, discards any client id, lets
the store assign the fresh primary key `nextId`, and the `num_likes` column
default fills in `0` when the payload left it unset; the new row is
appended. Returns the created row and the new table. -/
def create (now : Datetime) (nextId : Nat) (db : List RecRow)
    (p : CreatePayload) : RecRow × List RecRow :=
  let r : RecRow := ⟨nextId, p.user_id, p.product_id, p.score,
                     p.timestamp.getD now, p.num_likes.getD 0⟩
  (r, db ++ [r])

/-- A well-typed PUT body after `deserialize`: all four required fields,
`num_likes` optional (deserialize defaults it to `0`). -/
structure UpdatePayload where
  user_id : Int
  product_id : Int
  score : Rat
  timestamp : Datetime
  num_likes : Option Int
deriving DecidableEq

/-- `RecommendationResource.get` (routes.py lines 112-126): 400 on a
non-digit id before any lookup, 404 when absent, else 200 with the
serialized record. -/
def getRec (s : String) (db : List RecRow) : SingleResp :=
  if pyIsDigit s then
    match strToNat? s with
    | none => SingleResp.serverError
    | some n =>
      match find db n with
      | none => SingleResp.notFound
      | some r => SingleResp.okRec r.serialize
  else SingleResp.badRequest ("Invalid ID format: " ++ s)

/-- `RecommendationResource.put` (routes.py lines 133-156): 400 on an
`isdigit()`-failing id, 404 when absent, else deserialize the body into the
fetched row, commit, and return 200 with the updated record. (The source
passes the raw id string to `find`; the store coerces it to the integer
primary-key type, so for decimal ids the lookup is by the parsed integer,
while for an id that passes `isdigit()` without being decimal — `"²"` — the
lookup itself fails server-side: a 500, store unchanged.) -/
def putRec (s : String) (p : UpdatePayload) (db : List RecRow) :
    SingleResp × List RecRow :=
  if pyIsDigit s then
    match strToNat? s with
    | none => (SingleResp.serverError, db)
    | some n =>
      match find db n with
      | none => (SingleResp.notFound, db)
      | some r =>
        let r' : RecRow := ⟨r.rid, p.user_id, p.product_id, p.score,
                            p.timestamp, p.num_likes.getD 0⟩
        (SingleResp.okRec r'.serialize, updateRec db r')
  else (SingleResp.badRequest ("Invalid ID format: " ++ s), db)

/-- `RecommendationResource.delete` (routes.py lines 162-185): 400 on a
non-digit id, 404 when absent, else remove the row (by its primary key) and
return 204. -/
def deleteRec (s : String) (db : List RecRow) : SingleResp × List RecRow :=
  if pyIsDigit s then
    match strToNat? s with
    | none => (SingleResp.serverError, db)
    | some n =>
      match find db n with
      | none => (SingleResp.notFound, db)
      | some _ => (SingleResp.noContent, db.filter (fun r => r.rid != n))
  else (SingleResp.badRequest ("Invalid ID format: " ++ s), db)

/-- `RecommendationLikesResource.get` (routes.py lines 299-316): 400 on a
non-digit id, 404 when absent, else 200 with `{"id", "likes"}`. -/
def getLikes (s : String) (db : List RecRow) : SingleResp :=
  if pyIsDigit s then
    match strToNat? s with
    | none => SingleResp.serverError
    | some n =>
      match find db n with
      | none => SingleResp.notFound
      | some r => SingleResp.okLikes s r.num_likes
  else SingleResp.badRequest ("Invalid ID format: " ++ s)

/-- `RecommendationLikesResource.post` (routes.py lines 321-337): 400 on a
non-digit id, 404 when absent, else `num_likes += 1`, commit, 200 with the
serialized record. -/
def incrementLikes (s : String) (db : List RecRow) :
    SingleResp × List RecRow :=
  if pyIsDigit s then
    match strToNat? s with
    | none => (SingleResp.serverError, db)
    | some n =>
      match find db n with
      | none => (SingleResp.notFound, db)
      | some r =>
        let r' : RecRow := { r with num_likes := r.num_likes + 1 }
        (SingleResp.okRec r'.serialize, updateRec db r')
  else (SingleResp.badRequest ("Invalid ID format: " ++ s), db)

/-- `incrementLikes` applied `N` times to the same id. -/
def iterLikes (s : String) (db : List RecRow) : Nat → List RecRow
  | 0 => db
  | k + 1 => (incrementLikes s (iterLikes s db k)).2

/-- A response of the collection routes. -/
inductive ListResp where
  /-- HTTP 200 with a list of serialized records. -/
  | ok (body : List Dict)
  /-- HTTP 400 with error strings. -/
  | badRequest (errors : List String)
deriving DecidableEq

/-- The HTTP status a `ListResp` carries. -/
def statusOf : ListResp → Nat
  | .ok _ => 200
  | .badRequest _ => 400

/-- The parsed query arguments of `GET /recommendations` (routes.py lines
202-210): `user_id`/`product_id` as `int`, `min_score`/`max_score` as
`float`, `min_likes`/`max_likes` as `int`, `from_date`/`to_date` as plain
strings (any string parses). -/
structure ListArgs where
  user_id : Option Int
  product_id : Option Int
  min_score : Option Rat
  max_score : Option Rat
  min_likes : Option Int
  max_likes : Option Int
  from_date : Option String
  to_date : Option String
deriving DecidableEq

/-- `RecommendationCollection.get` (routes.py lines 195-268):
`user_id`/`product_id` are tested for truthiness (`if user_id:`), so a `0`
value is skipped like an absent one; the four numeric bounds are tested
with `is not None`; `from_date`/`to_date` are accepted by the argument
parser but never applied (the date validation and filtering block,
routes.py lines 209-236 and 254-257, is commented out). -/
def listRecommendations (a : ListArgs) (db : List RecRow) : ListResp :=
  let q := db
  let q : List RecRow := match a.user_id with
    | some u => if u != 0 then q.filter (fun r => r.user_id == u) else q
    | none => q
  let q : List RecRow := match a.product_id with
    | some p => if p != 0 then q.filter (fun r => r.product_id == p) else q
    | none => q
  let q : List RecRow := match a.min_score with
    | some v => q.filter (fun r => decide (v ≤ r.score))
    | none => q
  let q : List RecRow := match a.max_score with
    | some v => q.filter (fun r => decide (r.score ≤ v))
    | none => q
  let q : List RecRow := match a.min_likes with
    | some v => q.filter (fun r => decide (v ≤ r.num_likes))
    | none => q
  let q : List RecRow := match a.max_likes with
    | some v => q.filter (fun r => decide (r.num_likes ≤ v))
    | none => q
  ListResp.ok (q.map RecRow.serialize)

/-- The parsed query arguments of `GET /recommendations/filter`
(routes.py lines 357-364); `None` values are stripped before use, so a
present argument is a `some` field. -/
structure FilterArgs where
  user_id : Option Int
  product_id : Option Int
  score : Option Rat
  min_score : Option Rat
  max_score : Option Rat
  min_likes : Option Int
deriving DecidableEq

/-- `RecommendationFilterResource.get` (routes.py lines 348-392): collect
validation errors for a negative `min_score`/`max_score`
(`filters.get("min_score", 0) < 0`), return 400 when any, else call
`find_by_filters` and return 200 with the serialized results. -/
def filterEndpoint (a : FilterArgs) (db : List RecRow) : ListResp :=
  let errs :=
    (if a.min_score.getD 0 < 0 then ["min_score must be non-negative."]
     else []) ++
    (if a.max_score.getD 0 < 0 then ["max_score must be non-negative."]
     else [])
  if errs.isEmpty then
    ListResp.ok ((find_by_filters db
      (some ⟨a.user_id, a.product_id, a.score, a.min_score, a.max_score,
             a.min_likes⟩)).map RecRow.serialize)
  else ListResp.badRequest errs

/-- One state-changing operation exposed by the service: create (POST),
full update (PUT), delete, or like-increment. -/
inductive ServiceOp where
  | createOp (now : Datetime) (p : CreatePayload)
  | putOp (s : String) (p : UpdatePayload)
  | deleteOp (s : String)
  | likeOp (s : String)
deriving DecidableEq

/-- The store state: the next primary key the store will assign, and the
table. -/
structure Store where
  nextId : Nat
  rows : List RecRow
deriving DecidableEq

/-- Run one service operation against the store. -/
def runOp (st : Store) (op : ServiceOp) : Store :=
  match op with
  | .createOp now p => ⟨st.nextId + 1, (create now st.nextId st.rows p).2⟩
  | .putOp s p => ⟨st.nextId, (putRec s p st.rows).2⟩
  | .deleteOp s => ⟨st.nextId, (deleteRec s st.rows).2⟩
  | .likeOp s => ⟨st.nextId, (incrementLikes s st.rows).2⟩

/-- Run a sequence of service operations. -/
def runOps (st : Store) (ops : List ServiceOp) : Store :=
  ops.foldl runOp st

/-- Whether an operation's payload carries a non-negative `num_likes`
(vacuously true when it has no payload or leaves `num_likes` unset). -/
def ServiceOp.likesOK : ServiceOp → Bool
  | .createOp _ p => p.num_likes.all (fun l => decide (0 ≤ l))
  | .putOp _ p => p.num_likes.all (fun l => decide (0 ≤ l))
  | .deleteOp _ => true
  | .likeOp _ => true

/-- A concrete datetime for witnesses. -/
def dt0 : Datetime := ⟨2024, 10, 14, 12, 0, 0⟩

/-- A concrete creation payload (with a client-supplied id, which `create`
must discard). -/
def payEx : CreatePayload := ⟨some 99, 1, 2, 3, none, none⟩

/-- A concrete committed row with id 1 and zero likes. -/
def rowEx : RecRow := ⟨1, 1, 2, 3, dt0, 0⟩

/-- A concrete well-typed PUT body. -/
def updEx : UpdatePayload := ⟨1, 2, 3, dt0, none⟩

/-- A PUT body carrying a negative `num_likes`. -/
def updNeg : UpdatePayload := ⟨1, 2, 3, dt0, some (-1)⟩

/-- Filter-endpoint arguments with a negative `min_score`. -/
def fargEx : FilterArgs := ⟨none, none, none, some (-1), none, none⟩

end RecSvc

namespace RecSvc

/-- C1: `find_by_filters` returns exactly the rows satisfying the conjunction
of the present predicates; with an empty or absent filter dictionary it
returns the same rows as `all()`. -/
theorem C1_find_by_filters_conjunction (db : List RecRow) (fs : Filters) :
    find_by_filters db (some fs) = db.filter (matchesFilters fs)
    ∧ find_by_filters db (some Filters.empty) = allRecommendations db
    ∧ find_by_filters db none = allRecommendations db := by
  refine ⟨?_, ?_, ?_⟩
  · obtain ⟨u, p, s, mins, maxs, minl⟩ := fs
    cases u <;> cases p <;> cases s <;> cases mins <;> cases maxs <;>
      cases minl <;>
      · simp only [find_by_filters, Option.getD_some, List.filter_filter]
        first
        | exact ((List.filter_congr fun a _ => rfl).trans
            (List.filter_true _)).symm
        | · refine List.filter_congr fun a _ => ?_
            simp [matchesFilters, Bool.and_assoc, Bool.and_comm,
              Bool.and_left_comm]
  · simp [find_by_filters, Filters.empty, allRecommendations]
  · simp [find_by_filters, Filters.empty, allRecommendations]

/-- A well-formed request dictionary in the spec's own JSON shape (all
required keys present, `timestamp` an ISO-8601 string, `num_likes`
supplied). -/
def dRoundTripEx : Dict :=
  ⟨none, some (.vint 1), some (.vint 2), some (.vfloat 3),
   some (.vstr "2024-10-14T12:00:00"), some (.vint 0)⟩

/-- C2 counterexample: on a well-formed dictionary with all required keys
(`timestamp` an ISO-8601 string, as the spec's record JSON shape
prescribes), `serialize(deserialize(d))` does not return `d`: `serialize`
calls `.isoformat()` on the string stored by `deserialize` and raises
`AttributeError`. -/
theorem C2_roundtrip_counterexample :
    roundTrip dRoundTripEx ≠ Except.ok dRoundTripEx := by decide

/-- C2 (amended): `deserialize` copies the values as given and `serialize`
re-emits them, so the round trip preserves `user_id`, `product_id`, `score`
and `num_likes`; but the output always carries an `id` key (`None` on a
fresh model, whatever `id` the input dictionary had) and, when the input
`timestamp` is a `datetime` object, the output `timestamp` is its
`isoformat()` string, so `serialize(deserialize(d)) == d` fails in
general. -/
theorem C2_roundtrip_amended (iv : Option PyVal) (u p s L : PyVal)
    (t : Datetime) :
    roundTrip ⟨iv, some u, some p, some s, some (.vdatetime t), some L⟩
      = Except.ok ⟨some .vnone, some u, some p, some s,
                   some (.vstr t.isoformat), some L⟩ := rfl

/-- C5: `create` assigns the fresh store-generated id (discarding any
client-supplied one), defaults `timestamp` to the current time and
`num_likes` to `0` when omitted, and a subsequent `find` returns exactly
the created row, whose other fields equal the payload. -/
theorem C5_create_then_find (now : Datetime) (nextId : Nat)
    (db : List RecRow) (pay : CreatePayload)
    (hfresh : db.all (fun r => r.rid != nextId) = true) :
    find (create now nextId db pay).2 nextId
      = some (create now nextId db pay).1
    ∧ (create now nextId db pay).1 =
        ⟨nextId, pay.user_id, pay.product_id, pay.score,
         pay.timestamp.getD now, pay.num_likes.getD 0⟩ := by
  constructor
  · show List.find? _ (db ++ [_]) = _
    rw [List.find?_append]
    have h1 : db.find? (fun r => r.rid == nextId) = none := by
      rw [List.find?_eq_none]
      intro x hx
      have hne := List.all_eq_true.mp hfresh x hx
      simpa using hne
    simp [h1]
    rfl
  · rfl

/-- C5 witness at a concrete payload, store and clock. -/
theorem C5_create_then_find_witness :
    find (create dt0 1 [] payEx).2 1 = some (create dt0 1 [] payEx).1
    ∧ (create dt0 1 [] payEx).1 =
        ⟨1, payEx.user_id, payEx.product_id, payEx.score,
         payEx.timestamp.getD dt0, payEx.num_likes.getD 0⟩ :=
  C5_create_then_find dt0 1 [] payEx (by decide)

/-- C7 counterexample: the path id `"²"` is not integer-formatted, yet
Python's Unicode-aware `isdigit()` accepts it, so the routes do not answer
400: `int("²")` raises `ValueError`, an unhandled 500 (and on PUT the raw
string reaches the store lookup, which fails server-side). -/
theorem C7_counterexample_unicode_digit :
    pyIsDigit "²" = true
    ∧ (getRec "²" []).status = 500
    ∧ (deleteRec "²" []).1.status = 500
    ∧ (incrementLikes "²" []).1.status = 500 := by
  refine ⟨by decide, by decide, by decide, by decide⟩

/-- C7 (amended): an ASCII path id that is not integer-formatted (empty or
containing a non-digit character) fails `isdigit()` and makes every
single-record route (GET, PUT, DELETE, likes GET, likes POST) answer 400
with the invalid-id-format message, leaving the store untouched and giving
the same response whatever the store holds; non-ASCII ids can pass the
Unicode-aware `isdigit()` and are then not rejected with 400. -/
theorem C7_ascii_invalid_id_short_circuits (s : String) (db : List RecRow)
    (p : UpdatePayload)
    (hascii : s.data.all (fun c => decide (c.toNat < 128)) = true)
    (hbad : (s.data.isEmpty || s.data.any (fun c => !c.isDigit)) = true) :
    getRec s db = SingleResp.badRequest ("Invalid ID format: " ++ s)
    ∧ putRec s p db
        = (SingleResp.badRequest ("Invalid ID format: " ++ s), db)
    ∧ deleteRec s db
        = (SingleResp.badRequest ("Invalid ID format: " ++ s), db)
    ∧ getLikes s db = SingleResp.badRequest ("Invalid ID format: " ++ s)
    ∧ incrementLikes s db
        = (SingleResp.badRequest ("Invalid ID format: " ++ s), db) := by
  have hs : pyIsDigit s = false := by
    rcases Bool.or_eq_true .. |>.mp hbad with hemp | hany
    · simp [pyIsDigit, hemp]
    · obtain ⟨c, hc, hcd⟩ := List.any_eq_true.mp hany
      have hca : c.toNat < 128 := by
        simpa using List.all_eq_true.mp hascii c hc
      have hnd : c.isDigit = false := by simpa using hcd
      have h1 : (c == '¹') = false := by
        rw [beq_eq_false_iff_ne]
        rintro rfl
        exact absurd hca (by decide)
      have h2 : (c == '²') = false := by
        rw [beq_eq_false_iff_ne]
        rintro rfl
        exact absurd hca (by decide)
      have h3 : (c == '³') = false := by
        rw [beq_eq_false_iff_ne]
        rintro rfl
        exact absurd hca (by decide)
      have hall : s.data.all pyDigitChar = false := by
        rw [Bool.eq_false_iff]
        intro hall
        have := List.all_eq_true.mp hall c hc
        rw [pyDigitChar, hnd, h1, h2, h3] at this
        exact Bool.false_ne_true this
      simp [pyIsDigit, hall]
  simp [getRec, putRec, deleteRec, getLikes, incrementLikes, hs]

/-- C7 witness at the spec's own scenario id `"abc"` (ASCII, non-digit). -/
theorem C7_ascii_invalid_id_witness :
    getRec "abc" [rowEx]
        = SingleResp.badRequest ("Invalid ID format: " ++ "abc")
    ∧ putRec "abc" updEx [rowEx]
        = (SingleResp.badRequest ("Invalid ID format: " ++ "abc"), [rowEx])
    ∧ deleteRec "abc" [rowEx]
        = (SingleResp.badRequest ("Invalid ID format: " ++ "abc"), [rowEx])
    ∧ getLikes "abc" [rowEx]
        = SingleResp.badRequest ("Invalid ID format: " ++ "abc")
    ∧ incrementLikes "abc" [rowEx]
        = (SingleResp.badRequest ("Invalid ID format: " ++ "abc"), [rowEx]) :=
  C7_ascii_invalid_id_short_circuits "abc" [rowEx] updEx (by decide)
    (by decide)

/-- C8: deleting an existing integer-formatted id returns 204 and removes
the row (it is no longer found), and deleting the same id again returns
404 while leaving the store unchanged. -/
theorem C8_delete_idempotent_outcome (s : String) (n : Nat)
    (db : List RecRow) (r : RecRow)
    (hs : pyIsDigit s = true) (hn : strToNat? s = some n)
    (hr : db.find? (fun x => x.rid == n) = some r) :
    deleteRec s db
      = (SingleResp.noContent, db.filter (fun x => x.rid != n))
    ∧ find (db.filter (fun x => x.rid != n)) n = none
    ∧ deleteRec s (db.filter (fun x => x.rid != n))
        = (SingleResp.notFound, db.filter (fun x => x.rid != n)) := by
  have h2 : find (db.filter (fun x => x.rid != n)) n = none := by
    show List.find? _ _ = none
    rw [List.find?_eq_none]
    intro x hx
    have hne := (List.mem_filter.mp hx).2
    simpa using hne
  refine ⟨?_, h2, ?_⟩
  · simp [deleteRec, hs, hn, find, hr]
  · simp [deleteRec, hs, hn, h2]

/-- Replacing the row found under id `n` makes subsequent lookups of `n`
return the replacement. -/
theorem find?_updateRec (db : List RecRow) (n : Nat) (r r' : RecRow)
    (h : db.find? (fun x => x.rid == n) = some r) (hr' : r'.rid = n) :
    (updateRec db r').find? (fun x => x.rid == n) = some r' := by
  have hpf : ((fun x : RecRow => x.rid == n) ∘
      (fun x : RecRow => if x.rid == r'.rid then r' else x))
        = fun x : RecRow => x.rid == n := by
    funext x
    by_cases hx : x.rid = r'.rid
    · simp [Function.comp, hx, hr']
    · simp [Function.comp, hx]
  have hrn : r.rid = n := by simpa using List.find?_some h
  show List.find? _ (db.map _) = _
  rw [List.find?_map, hpf, h]
  simp [Option.map, hrn, hr']

/-- C6: on an existing id, the likes POST increments that row's `num_likes`
by exactly 1, persists the incremented row, and returns 200 with its
serialization; on a missing id it returns 404 and leaves the store alone;
and `N` such calls starting from `num_likes = 0` leave `num_likes = N`. -/
theorem C6_increment_likes (s : String) (n : Nat) (db dbA : List RecRow)
    (r : RecRow) (N : Nat)
    (hs : pyIsDigit s = true) (hn : strToNat? s = some n)
    (hr : db.find? (fun x => x.rid == n) = some r) (h0 : r.num_likes = 0)
    (habs : dbA.find? (fun x => x.rid == n) = none) :
    incrementLikes s db
      = (SingleResp.okRec
           (RecRow.serialize { r with num_likes := r.num_likes + 1 }),
         updateRec db { r with num_likes := r.num_likes + 1 })
    ∧ (iterLikes s db N).find? (fun x => x.rid == n)
        = some { r with num_likes := (N : Int) }
    ∧ incrementLikes s dbA = (SingleResp.notFound, dbA) := by
  have hrid : r.rid = n := by simpa using List.find?_some hr
  refine ⟨?_, ?_, ?_⟩
  · simp [incrementLikes, hs, hn, find, hr]
  · induction N with
    | zero =>
      simp only [iterLikes, hr, Nat.cast_zero, ← h0]
    | succ k ih =>
      have hstep : iterLikes s db (k + 1)
          = updateRec (iterLikes s db k)
              { r with num_likes := (k : Int) + 1 } := by
        simp [iterLikes, incrementLikes, hs, hn, find, ih]
      rw [hstep,
        find?_updateRec (iterLikes s db k) n _ _ ih (by simpa using hrid)]
      push_cast
      rfl
  · simp [incrementLikes, hs, hn, find, habs]

/-- C6 witness: two likes on a fresh one-row store reach `num_likes = 2`. -/
theorem C6_increment_likes_witness :
    incrementLikes "1" [rowEx]
      = (SingleResp.okRec
           (RecRow.serialize { rowEx with num_likes := rowEx.num_likes + 1 }),
         updateRec [rowEx] { rowEx with num_likes := rowEx.num_likes + 1 })
    ∧ (iterLikes "1" [rowEx] 2).find? (fun x => x.rid == 1)
        = some { rowEx with num_likes := ((2 : Nat) : Int) }
    ∧ incrementLikes "1" [] = (SingleResp.notFound, []) :=
  C6_increment_likes "1" 1 [rowEx] [] rowEx 2 (by decide) (by decide)
    (by decide) (by decide) (by decide)

/-- C8 witness: delete id 1 twice on a one-row store. -/
theorem C8_delete_idempotent_witness :
    deleteRec "1" [rowEx]
      = (SingleResp.noContent, [rowEx].filter (fun x => x.rid != 1))
    ∧ find ([rowEx].filter (fun x => x.rid != 1)) 1 = none
    ∧ deleteRec "1" ([rowEx].filter (fun x => x.rid != 1))
        = (SingleResp.notFound, [rowEx].filter (fun x => x.rid != 1)) :=
  C8_delete_idempotent_outcome "1" 1 [rowEx] rowEx (by decide) (by decide)
    (by decide)

/-- C9: a negative `min_score` or `max_score` on the filter endpoint is
rejected with a 400 validation response, and the response is computed
before (independently of) the store's contents. -/
theorem C9_negative_score_rejected (a : FilterArgs) (db db' : List RecRow)
    (h : a.min_score.getD 0 < 0 ∨ a.max_score.getD 0 < 0) :
    statusOf (filterEndpoint a db) = 400
    ∧ filterEndpoint a db = filterEndpoint a db' := by
  rcases h with h | h <;>
    constructor <;>
    simp [filterEndpoint, statusOf, h]

/-- C9 witness: `min_score = -1` is rejected on any store. -/
theorem C9_negative_score_witness :
    statusOf (filterEndpoint fargEx []) = 400
    ∧ filterEndpoint fargEx [] = filterEndpoint fargEx [rowEx] :=
  C9_negative_score_rejected fargEx [] [rowEx] (by decide)

/-- C10: on `GET /recommendations` a value `0` for `user_id` or
`product_id` is falsy (`if user_id:`) and imposes no constraint, returning
every record, while a value `0` for `min_score`, `max_score`, `min_likes`
or `max_likes` (`is not None`) does filter. -/
theorem C10_zero_truthiness_asymmetry (db : List RecRow) :
    listRecommendations ⟨some 0, none, none, none, none, none, none, none⟩ db
      = ListResp.ok (db.map RecRow.serialize)
    ∧ listRecommendations
        ⟨none, some 0, none, none, none, none, none, none⟩ db
      = ListResp.ok (db.map RecRow.serialize)
    ∧ listRecommendations
        ⟨none, none, some 0, none, none, none, none, none⟩ db
      = ListResp.ok
          ((db.filter (fun r => decide ((0 : Rat) ≤ r.score))).map
            RecRow.serialize)
    ∧ listRecommendations
        ⟨none, none, none, some 0, none, none, none, none⟩ db
      = ListResp.ok
          ((db.filter (fun r => decide (r.score ≤ (0 : Rat)))).map
            RecRow.serialize)
    ∧ listRecommendations
        ⟨none, none, none, none, some 0, none, none, none⟩ db
      = ListResp.ok
          ((db.filter (fun r => decide ((0 : Int) ≤ r.num_likes))).map
            RecRow.serialize)
    ∧ listRecommendations
        ⟨none, none, none, none, none, some 0, none, none⟩ db
      = ListResp.ok
          ((db.filter (fun r => decide (r.num_likes ≤ (0 : Int)))).map
            RecRow.serialize) :=
  ⟨rfl, rfl, rfl, rfl, rfl, rfl⟩

/-- An element of `updateRec db r'` is `r'` or an element of `db`. -/
theorem mem_updateRec {db : List RecRow} {r' x : RecRow}
    (hx : x ∈ updateRec db r') : x = r' ∨ x ∈ db := by
  simp only [updateRec, List.mem_map] at hx
  obtain ⟨y, hy, hyx⟩ := hx
  subst hyx
  by_cases h : (y.rid == r'.rid) = true
  · rw [if_pos h]
    exact Or.inl rfl
  · rw [if_neg h]
    exact Or.inr hy

/-- `Option.getD 0` of an option whose value (if any) is non-negative. -/
theorem getD_zero_nonneg {o : Option Int}
    (h : o.all (fun l => decide (0 ≤ l)) = true) : 0 ≤ o.getD 0 := by
  cases o with
  | none => simp
  | some l => simpa using h

/-- One service operation whose payload (if any) carries a non-negative
`num_likes` preserves non-negativity of `num_likes` across the table. -/
theorem runOp_preserves_nonneg (st : Store) (op : ServiceOp)
    (h0 : ∀ r ∈ st.rows, 0 ≤ r.num_likes) (hop : op.likesOK = true) :
    ∀ r ∈ (runOp st op).rows, 0 ≤ r.num_likes := by
  rcases op with ⟨now, p⟩ | ⟨s, p⟩ | s | s
  · -- POST: the new row's num_likes is the payload's, default 0
    intro r hrm
    rcases List.mem_append.mp hrm with hrm | hrm
    · exact h0 r hrm
    · have hre : r = ⟨st.nextId, p.user_id, p.product_id, p.score,
          p.timestamp.getD now, p.num_likes.getD 0⟩ := by
        simpa using hrm
      rw [hre]
      exact getD_zero_nonneg (by simpa [ServiceOp.likesOK] using hop)
  · -- PUT: the replaced row's num_likes is the payload's, default 0
    intro r hrm
    simp only [runOp] at hrm
    have hsub : (putRec s p st.rows).2 = st.rows ∨
        ∃ rr : RecRow, (putRec s p st.rows).2 = updateRec st.rows
          ⟨rr.rid, p.user_id, p.product_id, p.score, p.timestamp,
           p.num_likes.getD 0⟩ := by
      unfold putRec
      split
      · split
        · exact Or.inl rfl
        · split
          · exact Or.inl rfl
          · exact Or.inr ⟨_, rfl⟩
      · exact Or.inl rfl
    rcases hsub with hsub | ⟨rr, hsub⟩
    · rw [hsub] at hrm
      exact h0 r hrm
    · rw [hsub] at hrm
      rcases mem_updateRec hrm with hre | hrm
      · rw [hre]
        exact getD_zero_nonneg (by simpa [ServiceOp.likesOK] using hop)
      · exact h0 r hrm
  · -- DELETE: rows are only removed
    intro r hrm
    simp only [runOp] at hrm
    have hsub : (deleteRec s st.rows).2 = st.rows ∨
        ∃ n : Nat, (deleteRec s st.rows).2
          = st.rows.filter (fun x => x.rid != n) := by
      unfold deleteRec
      split
      · split
        · exact Or.inl rfl
        · split
          · exact Or.inl rfl
          · exact Or.inr ⟨_, rfl⟩
      · exact Or.inl rfl
    rcases hsub with hsub | ⟨n, hsub⟩
    · rw [hsub] at hrm
      exact h0 r hrm
    · rw [hsub] at hrm
      exact h0 r (List.mem_filter.mp hrm).1
  · -- likes POST: one row goes from a stored (hence non-negative) value
    -- to that value plus one
    intro r hrm
    simp only [runOp] at hrm
    have hsub : (incrementLikes s st.rows).2 = st.rows ∨
        ∃ rr : RecRow, rr ∈ st.rows ∧
          (incrementLikes s st.rows).2 = updateRec st.rows
            { rr with num_likes := rr.num_likes + 1 } := by
      unfold incrementLikes
      split
      · split
        · exact Or.inl rfl
        · split
          · exact Or.inl rfl
          · rename_i hfind
            exact Or.inr ⟨_, List.mem_of_find?_eq_some hfind, rfl⟩
      · exact Or.inl rfl
    rcases hsub with hsub | ⟨rr, hrr, hsub⟩
    · rw [hsub] at hrm
      exact h0 r hrm
    · rw [hsub] at hrm
      rcases mem_updateRec hrm with hre | hrm
      · rw [hre]
        have := h0 rr hrr
        simp only []
        omega
      · exact h0 r hrm

/-- Non-negativity of `num_likes` is preserved by any sequence of service
operations whose payloads carry only non-negative `num_likes` values. -/
theorem runOps_preserves_nonneg (ops : List ServiceOp) :
    ∀ st : Store, (∀ r ∈ st.rows, 0 ≤ r.num_likes) →
      (∀ op ∈ ops, op.likesOK = true) →
      ∀ r ∈ (runOps st ops).rows, 0 ≤ r.num_likes := by
  induction ops with
  | nil =>
    intro st h0 _ r hr
    exact h0 r hr
  | cons op rest ih =>
    intro st h0 hops r hr
    have hstep : runOps st (op :: rest) = runOps (runOp st op) rest := rfl
    rw [hstep] at hr
    exact ih (runOp st op)
      (runOp_preserves_nonneg st op h0 (hops op (List.mem_cons_self op rest)))
      (fun o ho => hops o (List.mem_cons_of_mem op ho)) r hr

/-- C3 counterexample: starting from an empty store, a POST followed by a
PUT whose body carries `num_likes = -1` — both operations the service
exposes — leaves a persisted record with `num_likes = -1 < 0`; a PUT can
also decrement `num_likes`, so the like endpoint is not the only way it
changes. -/
theorem C3_counterexample_put_negative :
    (runOps ⟨1, []⟩
        [ServiceOp.createOp dt0 payEx, ServiceOp.putOp "1" updNeg]).rows
      = [⟨1, 1, 2, 3, dt0, -1⟩]
    ∧ ((runOps ⟨1, []⟩
        [ServiceOp.createOp dt0 payEx, ServiceOp.putOp "1" updNeg]).rows.all
          (fun r => decide (0 ≤ r.num_likes))) = false := by
  constructor <;> decide

/-- C3 (amended): `num_likes` defaults to 0 at creation and the like
operation only increments, but POST and PUT bodies set `num_likes` to the
client-supplied value; therefore `num_likes ≥ 0` holds for every record
after any operation sequence provided every payload's `num_likes`, when
present, is non-negative. -/
theorem C3_amended_nonneg (st : Store) (ops : List ServiceOp)
    (h0 : st.rows.all (fun r => decide (0 ≤ r.num_likes)) = true)
    (hops : ops.all ServiceOp.likesOK = true) :
    (runOps st ops).rows.all (fun r => decide (0 ≤ r.num_likes)) = true := by
  rw [List.all_eq_true]
  intro r hr
  have h0' : ∀ r ∈ st.rows, 0 ≤ r.num_likes := by
    intro x hx
    simpa using List.all_eq_true.mp h0 x hx
  have hops' : ∀ op ∈ ops, op.likesOK = true :=
    fun op hop => List.all_eq_true.mp hops op hop
  simpa using runOps_preserves_nonneg ops st h0' hops' r hr

/-- C3 amended witness: a create followed by a like keeps all counts
non-negative. -/
theorem C3_amended_nonneg_witness :
    (runOps ⟨1, []⟩
        [ServiceOp.createOp dt0 payEx, ServiceOp.likeOp "1"]).rows.all
      (fun r => decide (0 ≤ r.num_likes)) = true :=
  C3_amended_nonneg ⟨1, []⟩
    [ServiceOp.createOp dt0 payEx, ServiceOp.likeOp "1"]
    (by decide) (by decide)

/-- C4 (code behaviour at the failing input): `from_date`/`to_date` are
parsed as plain strings and never applied — the filtering and validation
block is commented out — so even unparseable dates produce a 200 with the
unfiltered rows, never a 400, and no timestamp bound is ever added. -/
theorem C4_dates_accepted_but_ignored (db : List RecRow)
    (fd td : Option String) :
    listRecommendations ⟨none, none, none, none, none, none, fd, td⟩ db
      = ListResp.ok (db.map RecRow.serialize)
    ∧ listRecommendations
        ⟨none, none, none, none, none, none, some "not-a-date",
         some "9999-99-99"⟩ db
      = ListResp.ok (db.map RecRow.serialize) :=
  ⟨rfl, rfl⟩

end RecSvc
